import Mathlib

/-
Verification of the mcp-client protocol layer (mcp_client.py, helpers.py).

The Python sources are shallowly embedded: JSON values become an inductive
type, the transport `_rpc` becomes an oracle `Json → Except String Resp`
(a raised exception is `.error msg`, a decoded body is `.ok resp`; the
source annotates `_rpc` as returning `dict`, so responses are modelled as
association lists), and each operation additionally returns the list of
request payloads it handed to the transport, so that "no further request
was issued" is expressible.
-/

namespace MCP

/-- Model of a Python JSON value (json module); numbers are integers,
which covers every literal the client builds or inspects. -/
inductive Json where
  | null
  | bool (b : Bool)
  | num (n : Int)
  | str (s : String)
  | arr (elems : List Json)
  | obj (fields : List (String × Json))

/-- A decoded JSON-RPC response body: `_rpc` is annotated `-> dict` in the
source, so responses are Python dicts, modelled as association lists. -/
abbrev Resp := List (String × Json)

/-- Python truthiness of a JSON value (`bool(v)`): empty containers,
empty strings, zero, None and False are falsy. -/
def pyTruthy : Json → Bool
  | .null => false
  | .bool b => b
  | .num n => n != 0
  | .str s => s != ""
  | .arr xs => !xs.isEmpty
  | .obj kvs => !kvs.isEmpty

/-- mcp_client.py line 5: `JSONRPC_VERSION = "2.0"`. -/
def JSONRPC_VERSION : String := "2.0"

/-- mcp_client.py line 7: `os.getenv("MCP_PROTOCOL", "2024-09")`,
taken at its default value. -/
def DEFAULT_PROTOCOL : String := "2024-09"

/-- mcp_client.py lines 9-18: the strict handshake payload. -/
def INIT_STRICT : Json :=
  .obj [("jsonrpc", .str JSONRPC_VERSION), ("id", .num 1),
        ("method", .str "initialize"),
        ("params", .obj
          [("protocolVersion", .str DEFAULT_PROTOCOL),
           ("capabilities", .obj
             [("tools", .obj []), ("resources", .obj []), ("prompts", .obj [])]),
           ("clientInfo", .obj
             [("name", .str "mcp-chatbot"), ("version", .str "0.1.0")])])]

/-- mcp_client.py lines 20-25: the minimal handshake payload. -/
def INIT_MINIMAL : Json :=
  .obj [("jsonrpc", .str JSONRPC_VERSION), ("id", .num 1),
        ("method", .str "initialize"), ("params", .obj [])]

/-- mcp_client.py lines 27-31: the empty handshake payload (no `params`). -/
def INIT_EMPTY : Json :=
  .obj [("jsonrpc", .str JSONRPC_VERSION), ("id", .num 1),
        ("method", .str "initialize")]

/-- What one loop iteration of `BaseMCPClient.initialize` records in
`last_err`: either the response's `error` field, or a raised exception. -/
inductive RpcFailure where
  | errField (e : Json)
  | exn (msg : String)

/-- The `id` field of a request payload (`None` for non-dicts /
notifications, which the client builds without an `id` key). -/
def reqId (p : Json) : Option Json :=
  match p with
  | .obj kvs => kvs.lookup "id"
  | _ => none

/-- The `method` field of a request payload. -/
def reqMethod (p : Json) : Option Json :=
  match p with
  | .obj kvs => kvs.lookup "method"
  | _ => none

/-- One body iteration of `initialize`'s loop (mcp_client.py lines 57-66):
call `_rpc`, classify a raised exception or a response bearing a top-level
`error` field as a failure, anything else as a success. -/
def attempt (rpc : Json → Except String Resp) (p : Json) : Except RpcFailure Resp :=
  match rpc p with
  | .error e => .error (.exn e)
  | .ok resp =>
    match resp.lookup "error" with
    | some e => .error (.errField e)
    | none => .ok resp

/-- mcp_client.py lines 51-54: the attempt order chosen from the
`strict_init` configuration flag. -/
def initOrder (strict_init : Bool) : List Json :=
  if strict_init then [INIT_STRICT, INIT_MINIMAL, INIT_EMPTY]
  else [INIT_MINIMAL, INIT_EMPTY, INIT_STRICT]

/-- mcp_client.py lines 56-68: the fallback loop of
`BaseMCPClient.initialize`. First component: `.ok (resp.get("result", {}))`
on the first attempt whose response has no `error` field, otherwise
`.error last_err` (the `RuntimeError` raised after the loop). Second
component: the payloads handed to `_rpc`, in order. -/
def sessionInitLoop (rpc : Json → Except String Resp) :
    List Json → Option RpcFailure → Except (Option RpcFailure) Json × List Json
  | [], last => (.error last, [])
  | p :: rest, _ =>
    match attempt rpc p with
    | .error f =>
      let r := sessionInitLoop rpc rest (some f)
      (r.1, p :: r.2)
    | .ok resp => (.ok ((resp.lookup "result").getD (.obj [])), [p])

/-- `BaseMCPClient.initialize` (mcp_client.py lines 49-68). -/
def sessionInit (strict_init : Bool) (rpc : Json → Except String Resp) :
    Except (Option RpcFailure) Json × List Json :=
  sessionInitLoop rpc (initOrder strict_init) none

/-- An `initialize` response rejecting the request (top-level `error`). -/
def respInitRejected : Resp :=
  [("jsonrpc", .str "2.0"), ("id", .num 1),
   ("error", .obj [("code", .num (-32600)), ("message", .str "Invalid Request")])]

/-- An `initialize` response accepting the request. -/
def respInitOK : Resp :=
  [("jsonrpc", .str "2.0"), ("id", .num 1),
   ("result", .obj [("protocolVersion", .str "2024-09")])]

/-- A server that rejects the strict shape (non-empty `params`) and
accepts the minimal and empty shapes. -/
def rpcStrictRejected : Json → Except String Resp := fun p =>
  match p with
  | .obj kvs =>
    match kvs.lookup "params" with
    | some (.obj (_ :: _)) => .ok respInitRejected
    | _ => .ok respInitOK
  | _ => .ok respInitOK

/-- A server that rejects every `initialize` shape. -/
def rpcAllRejected : Json → Except String Resp := fun _ => .ok respInitRejected

/-- mcp_client.py line 116: the retry guard of `_rpc_lenient` —
continue to the next shape only when the error is a dict whose `code`
equals -32602 (JSON-RPC invalid params). -/
def isInvalidParamsErr (e : Json) : Bool :=
  match e with
  | .obj kvs =>
    match kvs.lookup "code" with
    | some (.num n) => n == -32602
    | _ => false
  | _ => false

/-- mcp_client.py line 118: the synthetic response returned when the
shape list is somehow exhausted with `last` still falsy. -/
def fallbackResp : Resp :=
  [("error", .obj [("code", .num (-32099)), ("message", .str "all attempts failed")])]

/-- mcp_client.py lines 106-110: the three param shapes `_rpc_lenient`
tries for a method without defined params — `params` omitted, `params: {}`,
and `params: null`, in that order. -/
def lenientShapes (method : String) (idv : Int) : List Json :=
  [ .obj [("jsonrpc", .str JSONRPC_VERSION), ("id", .num idv),
          ("method", .str method)],
    .obj [("jsonrpc", .str JSONRPC_VERSION), ("id", .num idv),
          ("method", .str method), ("params", .obj [])],
    .obj [("jsonrpc", .str JSONRPC_VERSION), ("id", .num idv),
          ("method", .str method), ("params", .null)] ]

/-- mcp_client.py lines 104-118: the shape loop of `_rpc_lenient`.
A raised transport exception propagates (there is no try/except here);
the first response without an `error` field is returned; a response whose
error is not a dict with code -32602 is returned at once; otherwise the
next shape is tried, and after the last shape `last or {...}` is returned
(a dict is falsy exactly when empty). Second component: payloads sent. -/
def lenientLoop (rpc : Json → Except String Resp) :
    List Json → Option Resp → Except String Resp × List Json
  | [], last =>
    (.ok (match last with
          | some l => if l.isEmpty then fallbackResp else l
          | none => fallbackResp), [])
  | p :: rest, _ =>
    match rpc p with
    | .error e => (.error e, [p])
    | .ok resp =>
      match resp.lookup "error" with
      | none => (.ok resp, [p])
      | some e =>
        if isInvalidParamsErr e then
          let r := lenientLoop rpc rest (some resp)
          (r.1, p :: r.2)
        else (.ok resp, [p])

/-- `BaseMCPClient._rpc_lenient` (mcp_client.py lines 96-120). -/
def rpc_lenient (rpc : Json → Except String Resp) (method : String)
    (params : Option Json) (idv : Int) : Except String Resp × List Json :=
  match params with
  | none => lenientLoop rpc (lenientShapes method idv) none
  | some ps =>
    let p : Json := .obj [("jsonrpc", .str JSONRPC_VERSION), ("id", .num idv),
                          ("method", .str method), ("params", ps)]
    match rpc p with
    | .error e => (.error e, [p])
    | .ok resp => (.ok resp, [p])

/-- The mutable per-client state of `BaseMCPClient.__init__`
(mcp_client.py lines 34-38): a name, the `tools` attribute, and the
`strict_init` flag. Note: no field records whether the handshake ran or
succeeded — the class keeps no such state. -/
structure Session where
  name : String
  tools : Json
  strict_init : Bool

/-- mcp_client.py line 83: `(resp.get("result") or {}).get("tools", [])`.
A falsy `result` is replaced by `{}`; a truthy non-dict `result` makes the
attribute access `.get` raise (`AttributeError`). -/
def getToolsField (resp : Resp) : Except String Json :=
  let rv := (resp.lookup "result").getD .null
  let rv2 := if pyTruthy rv then rv else .obj []
  match rv2 with
  | .obj kvs => .ok ((kvs.lookup "tools").getD (.arr []))
  | _ => .error "AttributeError"

/-- `BaseMCPClient.list_tools` (mcp_client.py lines 79-84): one lenient
`tools/list` round with hard-coded id 2; an `error` field raises
`RuntimeError(resp["error"])`; otherwise `self.tools` is replaced.
Returns (result, updated session, payloads sent). There is no
precondition check of any kind before the transport is used. -/
def list_tools (st : Session) (rpc : Json → Except String Resp) :
    Except RpcFailure Json × Session × List Json :=
  match rpc_lenient rpc "tools/list" none 2 with
  | (.error e, sent) => (.error (.exn e), st, sent)
  | (.ok resp, sent) =>
    match resp.lookup "error" with
    | some e => (.error (.errField e), st, sent)
    | none =>
      match getToolsField resp with
      | .error msg => (.error (.exn msg), st, sent)
      | .ok tools => (.ok tools, { st with tools := tools }, sent)

/-- mcp_client.py lines 87-90: the `tools/call` payload, with the
hard-coded id 3 every invocation uses. -/
def call_tool_payload (name : String) (arguments : Json) : Json :=
  .obj [("jsonrpc", .str JSONRPC_VERSION), ("id", .num 3),
        ("method", .str "tools/call"),
        ("params", .obj [("name", .str name), ("arguments", arguments)])]

/-- `BaseMCPClient.call_tool` (mcp_client.py lines 86-94): one `_rpc`
round trip; an `error` field raises; otherwise the full response envelope
is returned. No precondition check, no session mutation. -/
def call_tool (_st : Session) (rpc : Json → Except String Resp)
    (name : String) (arguments : Json) : Except RpcFailure Resp × List Json :=
  let p := call_tool_payload name arguments
  match rpc p with
  | .error e => (.error (.exn e), [p])
  | .ok resp =>
    match resp.lookup "error" with
    | some e => (.error (.errField e), [p])
    | none => (.ok resp, [p])

/-- mcp_client.py lines 72-76: the `notifications/initialized`
notification payload — built without any `id` key. -/
def notifyInitPayload : Json :=
  .obj [("jsonrpc", .str JSONRPC_VERSION),
        ("method", .str "notifications/initialized"), ("params", .obj [])]

/-- A `tools/list` rejection with the invalid-params code. -/
def resp32602 : Resp :=
  [("jsonrpc", .str "2.0"), ("id", .num 2),
   ("error", .obj [("code", .num (-32602)), ("message", .str "Invalid params")])]

/-- A successful `tools/list` response carrying one tool. -/
def respTools : Resp :=
  [("jsonrpc", .str "2.0"), ("id", .num 2),
   ("result", .obj [("tools", .arr [.obj [("name", .str "read_file")]])])]

/-- A server that rejects a request without `params` with code -32602 and
accepts one whose `params` is present. -/
def rpcParamsRequired : Json → Except String Resp := fun p =>
  match p with
  | .obj kvs =>
    match kvs.lookup "params" with
    | some (.obj _) => .ok respTools
    | _ => .ok resp32602
  | _ => .ok resp32602

/-- A server that answers every request with an empty tool catalog. -/
def rpcToolsOK : Json → Except String Resp := fun _ =>
  .ok [("jsonrpc", .str "2.0"), ("result", .obj [("tools", .arr [])])]

/-- A client state fresh out of `__init__`: its handshake has never been
run, let alone succeeded. -/
def freshSession : Session := ⟨"fs", .arr [], true⟩

/-- The opening-brace character, written by code point. -/
def lbrace : Char := Char.ofNat 123

/-- The closing-brace character, written by code point. -/
def rbrace : Char := Char.ofNat 125

/-- JSON insignificant whitespace. -/
def isWsChar (c : Char) : Bool := c == ' ' || c == '\t' || c == '\n' || c == '\r'

/-- Drop insignificant whitespace. -/
def skipWs (cs : List Char) : List Char := cs.dropWhile isWsChar

/-- JSON string escapes (`\uXXXX` is outside this model). -/
def escChar (e : Char) : Option Char :=
  if e = '"' then some '"'
  else if e = '\\' then some '\\'
  else if e = '/' then some '/'
  else if e = 'n' then some '\n'
  else if e = 't' then some '\t'
  else if e = 'r' then some '\r'
  else if e = 'b' then some (Char.ofNat 8)
  else if e = 'f' then some (Char.ofNat 12)
  else none

/-- Parse the remainder of a JSON string literal (after the opening
quote), returning the string and the input following the closing quote. -/
def parseStringBody (fuel : Nat) (cs : List Char) : Option (String × List Char) :=
  match fuel, cs with
  | 0, _ => none
  | _ + 1, [] => none
  | fuel + 1, c :: rest =>
    if c = '"' then some ("", rest)
    else if c = '\\' then
      match rest with
      | [] => none
      | e :: rest2 =>
        match escChar e with
        | none => none
        | some dc =>
          match parseStringBody fuel rest2 with
          | some (s, rem) => some (⟨dc :: s.data⟩, rem)
          | none => none
    else
      match parseStringBody fuel rest with
      | some (s, rem) => some (⟨c :: s.data⟩, rem)
      | none => none

/-- Parse a run of decimal digits. -/
def parseDigits (cs : List Char) : Option (Nat × List Char) :=
  let ds := cs.takeWhile (fun c => c.isDigit)
  if ds.isEmpty then none
  else some (ds.foldl (fun a c => a * 10 + (c.toNat - 48)) 0, cs.drop ds.length)

/-- Parse a JSON integer (the numeric subset this model covers). -/
def parseNumber (cs : List Char) : Option (Json × List Char) :=
  match cs with
  | '-' :: rest =>
    match parseDigits rest with
    | some (n, rem) => some (.num (-(n : Int)), rem)
    | none => none
  | _ =>
    match parseDigits cs with
    | some (n, rem) => some (.num (n : Int), rem)
    | none => none

mutual

/-- Parse one JSON value. Fuel strictly exceeds the remaining input
length at every call, so `json_loads` never exhausts it. -/
def parseValue (fuel : Nat) (cs : List Char) : Option (Json × List Char) :=
  match fuel with
  | 0 => none
  | fuel + 1 =>
    match skipWs cs with
    | [] => none
    | c :: rest =>
      if c = '"' then
        match parseStringBody (fuel + 1) rest with
        | some (s, rem) => some (.str s, rem)
        | none => none
      else if c = lbrace then
        match skipWs rest with
        | [] => none
        | d :: rem =>
          if d = rbrace then some (.obj [], rem)
          else parseMembers fuel (skipWs rest) []
      else if c = '[' then
        match skipWs rest with
        | [] => none
        | d :: rem =>
          if d = ']' then some (.arr [], rem)
          else parseItems fuel (skipWs rest) []
      else if c = 't' then
        match rest with
        | 'r' :: 'u' :: 'e' :: rem => some (.bool true, rem)
        | _ => none
      else if c = 'f' then
        match rest with
        | 'a' :: 'l' :: 's' :: 'e' :: rem => some (.bool false, rem)
        | _ => none
      else if c = 'n' then
        match rest with
        | 'u' :: 'l' :: 'l' :: rem => some (.null, rem)
        | _ => none
      else parseNumber (c :: rest)
termination_by structural fuel

/-- Parse the members of a JSON object, after at least one is known to
follow. -/
def parseMembers (fuel : Nat) (cs : List Char) (acc : List (String × Json)) :
    Option (Json × List Char) :=
  match fuel with
  | 0 => none
  | fuel + 1 =>
    match skipWs cs with
    | '"' :: rest =>
      match parseStringBody (fuel + 1) rest with
      | some (k, rem) =>
        match skipWs rem with
        | ':' :: rem2 =>
          match parseValue fuel rem2 with
          | some (v, rem3) =>
            match skipWs rem3 with
            | ',' :: rem4 => parseMembers fuel rem4 (acc ++ [(k, v)])
            | d :: rem4 =>
              if d = rbrace then some (.obj (acc ++ [(k, v)]), rem4) else none
            | [] => none
          | none => none
        | _ => none
      | none => none
    | _ => none
termination_by structural fuel

/-- Parse the items of a JSON array, after at least one is known to
follow. -/
def parseItems (fuel : Nat) (cs : List Char) (acc : List Json) :
    Option (Json × List Char) :=
  match fuel with
  | 0 => none
  | fuel + 1 =>
    match parseValue fuel cs with
    | some (v, rem) =>
      match skipWs rem with
      | ',' :: rem2 => parseItems fuel rem2 (acc ++ [v])
      | ']' :: rem2 => some (.arr (acc ++ [v]), rem2)
      | _ => none
    | none => none
termination_by structural fuel

end

/-- Model of `json.loads` (the json standard-library parser, an external
dependency of mcp_client.py), on the JSON subset with integer numerals:
one value, optionally surrounded by whitespace, nothing trailing. -/
def json_loads (s : String) : Option Json :=
  match parseValue (s.length + 1) s.data with
  | some (j, rem) => if (skipWs rem).isEmpty then some j else none
  | none => none

/-- Python `str.isspace` on the ASCII whitespace characters
`str.strip()` removes. -/
def pyWsChar (c : Char) : Bool :=
  c == ' ' || c == '\t' || c == '\n' || c == '\r'
    || c == Char.ofNat 11 || c == Char.ofNat 12

/-- Model of Python `raw.strip()`: whitespace removed from both ends. -/
def pyStrip (s : String) : String :=
  ⟨((s.data.dropWhile pyWsChar).reverse.dropWhile pyWsChar).reverse⟩

/-- Outcome of `StdioMCPClient._read_json_line`: a parsed message,
`RuntimeError("no stdout from stdio server")` (the stream ended — a
transport-closed failure), or `RuntimeError("gave up reading JSON from
stdio server")` (the 500-line skip budget ran out — a framing timeout). -/
inductive FrameResult where
  | ok (j : Json)
  | transportClosed
  | framingTimeout

/-- What one loop iteration of `_read_json_line` extracts from a line:
`some j` when the stripped line starts with a brace or bracket and parses,
`none` when the line is skipped. (`raw = ""` is the end-of-stream readline
result and is handled by the loop itself.) -/
def lineMessage (parse : String → Option Json) (raw : String) : Option Json :=
  if raw = "" then none
  else
    match (pyStrip raw).data with
    | [] => none
    | c :: _ => if c = lbrace ∨ c = '[' then parse (pyStrip raw) else none

/-- mcp_client.py lines 156-169: the body of `_read_json_line`. The list
holds the lines `readline` will deliver before end-of-stream; an empty
string is `readline`'s end-of-stream result. -/
def read_json_line_loop (parse : String → Option Json) :
    Nat → List String → FrameResult
  | 0, _ => .framingTimeout
  | _ + 1, [] => .transportClosed
  | fuel + 1, raw :: rest =>
    if raw = "" then .transportClosed
    else
      match (pyStrip raw).data with
      | [] => read_json_line_loop parse fuel rest
      | c :: _ =>
        if c = lbrace ∨ c = '[' then
          match parse (pyStrip raw) with
          | some j => .ok j
          | none => read_json_line_loop parse fuel rest
        else read_json_line_loop parse fuel rest

/-- `StdioMCPClient._read_json_line` (mcp_client.py lines 153-169), with
its `range(500)` skip budget. -/
def read_json_line (parse : String → Option Json) (lines : List String) :
    FrameResult :=
  read_json_line_loop parse 500 lines

/-- The message framing example stream's JSON line. -/
def bannerJsonLine : String :=
  "\x7b\"jsonrpc\":\"2.0\",\"id\":2,\"result\":\x7b\x7d\x7d"

/-- Two banner lines of log noise followed by one JSON message. -/
def bannerStream : List String :=
  ["startup banner", "more log text", bannerJsonLine]

/-- The parsed value of the example stream's JSON line. -/
def bannerJsonVal : Json :=
  .obj [("jsonrpc", .str "2.0"), ("id", .num 2), ("result", .obj [])]

/-- `BaseMCPClient._notify` (mcp_client.py lines 43-47), used by the HTTP
transport: the RPC runs under `try`/`except Exception: pass`, so every
outcome — response, error response, raised exception — is swallowed. -/
def base_notify (rpc : Json → Except String Resp) (payload : Json) :
    Except String Unit :=
  match rpc payload with
  | _ => .ok ()

/-- `StdioMCPClient._notify` (mcp_client.py lines 179-187): when `poll()`
shows the child already exited, return silently; otherwise write and flush
the line — there is no try/except around the write, so a raised write
error propagates to the caller. -/
def stdio_notify (procExited : Bool) (write : Json → Except String Unit)
    (payload : Json) : Except String Unit :=
  if procExited then .ok ()
  else write payload

/-- `notify_initialized` (mcp_client.py lines 70-77) on the HTTP
transport, which inherits the base `_notify`. -/
def notify_initialized_http (rpc : Json → Except String Resp) :
    Except String Unit :=
  base_notify rpc notifyInitPayload

/-- `notify_initialized` on the stdio transport, which overrides
`_notify`. -/
def notify_initialized_stdio (procExited : Bool)
    (write : Json → Except String Unit) : Except String Unit :=
  stdio_notify procExited write notifyInitPayload

/-- A pipe write that raises (e.g. the child died between `poll()` and
`write`, leaving a broken pipe). -/
def badWrite : Json → Except String Unit := fun _ => .error "BrokenPipeError"

/-- The exception that aborts `bootstrap_clients` for one descriptor:
a handshake `RuntimeError`, a notification write error, or a
`tools/list` `RuntimeError`. -/
inductive BootFailure where
  | initFailed (e : Option RpcFailure)
  | notifyFailed (msg : String)
  | toolsFailed (e : RpcFailure)

/-- One configured server as `bootstrap_clients` sees it: a name, the
`strict_init` flag, its transport behaviour, and its process/pipe state
for the optional notification. -/
structure ServerSpec where
  name : String
  strict_init : Bool
  rpc : Json → Except String Resp
  procExited : Bool
  write : Json → Except String Unit

/-- The per-descriptor body of `bootstrap_clients`' stdio loop
(mcp_client.py lines 209-219): construct the client, run `initialize`,
send `notifications/initialized` when the name is in the notify list, run
`list_tools`, and yield the client; any raised error escapes — there is
no try/except anywhere in the loop. -/
def bootstrapOne (notifyList : List String) (d : ServerSpec) :
    Except BootFailure Session :=
  match (sessionInit d.strict_init d.rpc).1 with
  | .error e => .error (.initFailed e)
  | .ok _ =>
    match (if d.name ∈ notifyList
           then notify_initialized_stdio d.procExited d.write
           else .ok ()) with
    | .error m => .error (.notifyFailed m)
    | .ok _ =>
      let r := list_tools ⟨d.name, .arr [], d.strict_init⟩ d.rpc
      match r.1 with
      | .error e => .error (.toolsFailed e)
      | .ok _ => .ok r.2.1

/-- `bootstrap_clients` (mcp_client.py lines 190-221) over an explicit
descriptor list (the env-string parsing that produces the list is
elided; the HTTP loop at lines 195-201 has the same shape minus the
notification step, as does `build_clients_from_config` in
mcp_config_loader.py). A raised error propagates out of the whole
coroutine, and the `clients` accumulated so far are lost. -/
def bootstrap_clients (notifyList : List String) :
    List ServerSpec → List (String × Session)
      → Except BootFailure (List (String × Session))
  | [], clients => .ok clients
  | d :: rest, clients =>
    match bootstrapOne notifyList d with
    | .error e => .error e
    | .ok st => bootstrap_clients notifyList rest (clients ++ [(d.name, st)])

/-- A server whose transport always raises. -/
def rpcRefused : Json → Except String Resp := fun _ => .error "connection refused"

/-- A descriptor whose bootstrap fails at the handshake. -/
def dBad : ServerSpec := ⟨"bad", true, rpcRefused, false, fun _ => .ok ()⟩

/-- A descriptor whose bootstrap succeeds. -/
def dGood : ServerSpec := ⟨"good", true, rpcToolsOK, false, fun _ => .ok ()⟩

/-- Lexical model of `Path.resolve()` applied to an absolute path given
by its components (helpers.py uses `resolve` on paths built under an
absolute base): `..` removes the previous component (at the root it is a
no-op), symlink-free. -/
def normParts (ps : List String) : List String :=
  ps.foldl (fun acc c => if c = ".." then acc.dropLast else acc ++ [c]) []

/-- Split on `/`, keeping empty segments for the later filter. -/
def splitSlashAux : List Char → List Char → List String
  | [], acc => [⟨acc.reverse⟩]
  | c :: rest, acc =>
    if c = '/' then ⟨acc.reverse⟩ :: splitSlashAux rest []
    else splitSlashAux rest (c :: acc)

/-- The `parts` of a relative `PurePosixPath`: segments between slashes,
with empty segments and `.` dropped (`..` is kept). -/
def pathParts (s : String) : List String :=
  (splitSlashAux s.data []).filter (fun c => c != "" && c != ".")

/-- `PurePosixPath.name`: the final part, `""` when there are none
(note `Path("..").name` is `".."`). -/
def pathName (parts : List String) : String := parts.getLast?.getD ""

/-- Python `value.lstrip("/")`. -/
def lstripSlashes (s : String) : String := ⟨s.data.dropWhile (fun c => c == '/')⟩

/-- `str()` of an absolute path given by its components. -/
def pathToString (parts : List String) : String :=
  if parts.isEmpty then "/" else joinParts parts
where
  joinParts : List String → String
    | [] => ""
    | p :: rest => "/" ++ p ++ joinParts rest

/-- `helpers._normalize_path_into_base` (helpers.py lines 73-81), on the
symlink-free lexical path model: resolve the base, strip leading slashes
from the value, resolve the value under the base; if the result escapes the
base (`relative_to` fails), fall back to `base / raw.name` — returned
without any further containment check. -/
def normalize_path_into_base (base_dir : List String) (value : String) :
    List String :=
  let base := normParts base_dir
  let raw := pathParts (lstripSlashes value)
  let target := normParts (base ++ raw)
  if base.isPrefixOf target then target
  else
    let n := pathName raw
    normParts (base ++ (if n = "" then [] else [n]))

/-- helpers.py line 71: the argument keys treated as filesystem paths. -/
def FS_PATH_KEYS : List String := ["path", "source", "destination"]

/-- `helpers.fs_normalize_args` (helpers.py lines 83-96): with a truthy
base dir and a dict argument map, rewrite string values under the path
keys and string elements of a list under `"paths"`; otherwise return the
arguments unchanged. -/
def fs_normalize_args (args : Json) (base_dir : Option (List String)) : Json :=
  match base_dir, args with
  | some bd, .obj kvs =>
    .obj (kvs.map (fun kv =>
      if kv.1 ∈ FS_PATH_KEYS then
        match kv.2 with
        | .str s => (kv.1, .str (pathToString (normalize_path_into_base bd s)))
        | v => (kv.1, v)
      else if kv.1 = "paths" then
        match kv.2 with
        | .arr xs =>
          (kv.1, .arr (xs.map (fun x =>
            match x with
            | .str s => .str (pathToString (normalize_path_into_base bd s))
            | v => v)))
        | v => (kv.1, v)
      else kv))
  | _, _ => args

namespace Theorems

open MCP

/-- C1: `BaseMCPClient.initialize` attempts the three handshake shapes one
at a time against the same `initialize` method — Strict, Minimal, Empty
when `strict_init` is set (the default), and Minimal, Empty, Strict when
the flag reverses it — and returns the `result` of the first attempt whose
response has no top-level `error` field, issuing no request beyond that
first successful attempt. -/
theorem init_fallback_first_success (strict_init : Bool)
    (rpc : Json → Except String Resp) (i : Nat)
    (hi : i < (initOrder strict_init).length)
    (hprev : ∀ p ∈ (initOrder strict_init).take i, ∃ f, attempt rpc p = .error f)
    (resp : Resp)
    (hok : attempt rpc ((initOrder strict_init).get ⟨i, hi⟩) = .ok resp) :
    initOrder true = [INIT_STRICT, INIT_MINIMAL, INIT_EMPTY]
    ∧ initOrder false = [INIT_MINIMAL, INIT_EMPTY, INIT_STRICT]
    ∧ (initOrder strict_init).map reqMethod
        = [some (.str "initialize"), some (.str "initialize"), some (.str "initialize")]
    ∧ sessionInit strict_init rpc
        = (.ok ((resp.lookup "result").getD (.obj [])),
           (initOrder strict_init).take (i + 1)) := by
  refine ⟨rfl, rfl, by cases strict_init <;> rfl, ?_⟩
  unfold sessionInit
  have main : ∀ (atts : List Json) (last : Option RpcFailure) (i : Nat)
      (hi : i < atts.length),
      (∀ p ∈ atts.take i, ∃ f, attempt rpc p = .error f) →
      ∀ resp, attempt rpc (atts.get ⟨i, hi⟩) = .ok resp →
      sessionInitLoop rpc atts last
        = (.ok ((resp.lookup "result").getD (.obj [])), atts.take (i + 1)) := by
    intro atts
    induction atts with
    | nil => intro _ i hi; exact absurd hi (by simp)
    | cons p rest ih =>
      intro last i hi hprev resp hok
      cases i with
      | zero =>
        simp only [List.get] at hok
        simp [sessionInitLoop, hok]
      | succ i =>
        obtain ⟨f, hf⟩ := hprev p (by simp)
        simp only [List.get] at hok
        have hrec := ih (some f) i (by simpa using hi)
          (fun q hq => hprev q (by simp [hq])) resp hok
        simp [sessionInitLoop, hf, hrec]
  exact main (initOrder strict_init) none i hi hprev resp hok

/-- Witness for C1: a server that rejects the strict shape and accepts the
minimal one makes the (default-order) handshake succeed on the second
attempt, sending exactly the strict and the minimal payloads. -/
theorem init_fallback_first_success_witness :
    sessionInit true rpcStrictRejected
      = (.ok (.obj [("protocolVersion", .str "2024-09")]),
         [INIT_STRICT, INIT_MINIMAL]) :=
  (init_fallback_first_success true rpcStrictRejected 1 (by decide)
    (by
      intro p hp
      have hp : p = INIT_STRICT := by simpa [initOrder] using hp
      subst hp
      exact ⟨.errField (.obj [("code", .num (-32600)),
        ("message", .str "Invalid Request")]), rfl⟩)
    respInitOK rfl).2.2.2

/-- C2: when every one of the three handshake attempts fails — a response
with a top-level `error` field or a raised transport exception —
`initialize` raises, carrying the failure produced by the final attempt,
after having sent all three payloads. -/
theorem init_fallback_exhaustion (strict_init : Bool)
    (rpc : Json → Except String Resp) (f1 f2 f3 : RpcFailure)
    (h : (initOrder strict_init).map (attempt rpc)
      = [.error f1, .error f2, .error f3]) :
    sessionInit strict_init rpc = (.error (some f3), initOrder strict_init) := by
  cases strict_init <;>
  · simp only [initOrder, Bool.false_eq_true, if_true, if_false,
      List.map_cons, List.map_nil] at h
    injection h with h1 h
    injection h with h2 h
    injection h with h3 h
    simp [sessionInit, initOrder, sessionInitLoop, h1, h2, h3]

/-- Witness for C2: a server rejecting all three shapes makes `initialize`
fail with the last rejection, after sending all three payloads. -/
theorem init_fallback_exhaustion_witness :
    sessionInit true rpcAllRejected
      = (.error (some (.errField (.obj [("code", .num (-32600)),
          ("message", .str "Invalid Request")]))),
         [INIT_STRICT, INIT_MINIMAL, INIT_EMPTY]) :=
  init_fallback_exhaustion true rpcAllRejected _ _ _ rfl

/-- Behaviour of `_rpc_lenient`'s shape loop: after a prefix of
invalid-params rejections, the first shape answered without an `error`
field is returned, and a shape answered with a non-(-32602) error is
returned at once; in both cases no later shape is sent. -/
theorem lenientLoop_spec (rpc : Json → Except String Resp) :
    ∀ (shapes : List Json) (last : Option Resp) (i : Nat) (hi : i < shapes.length),
    (∀ p ∈ shapes.take i, ∃ resp e, rpc p = .ok resp ∧ resp.lookup "error" = some e
        ∧ isInvalidParamsErr e = true) →
    (∀ resp, rpc (shapes.get ⟨i, hi⟩) = .ok resp → resp.lookup "error" = none →
      lenientLoop rpc shapes last = (.ok resp, shapes.take (i + 1)))
    ∧ (∀ resp e, rpc (shapes.get ⟨i, hi⟩) = .ok resp → resp.lookup "error" = some e →
        isInvalidParamsErr e = false →
        lenientLoop rpc shapes last = (.ok resp, shapes.take (i + 1))) := by
  intro shapes
  induction shapes with
  | nil => intro _ i hi; exact absurd hi (by simp)
  | cons p rest ih =>
    intro last i hi hprev
    cases i with
    | zero =>
      constructor
      · intro resp hok herr
        simp only [List.get] at hok
        simp [lenientLoop, hok, herr]
      · intro resp e hok herr hinv
        simp only [List.get] at hok
        simp [lenientLoop, hok, herr, hinv]
    | succ i =>
      obtain ⟨resp0, e0, hr0, he0, hv0⟩ := hprev p (by simp)
      have ihs := ih (some resp0) i (by simpa using hi)
        (fun q hq => hprev q (by simp [hq]))
      constructor
      · intro resp hok herr
        simp only [List.get] at hok
        have hrec := ihs.1 resp hok herr
        simp [lenientLoop, hr0, he0, hv0, hrec]
      · intro resp e hok herr hinv
        simp only [List.get] at hok
        have hrec := ihs.2 resp e hok herr hinv
        simp [lenientLoop, hr0, he0, hv0, hrec]

/-- `list_tools` hands to the caller exactly the payload trace of its
single `_rpc_lenient` round. -/
theorem list_tools_sent_eq (st : Session) (rpc : Json → Except String Resp) :
    (list_tools st rpc).2.2 = (rpc_lenient rpc "tools/list" none 2).2 := by
  rcases hq : rpc_lenient rpc "tools/list" none 2 with ⟨r, sent⟩
  cases r with
  | error e => simp [list_tools, hq]
  | ok resp =>
    cases hl : resp.lookup "error" with
    | some e => simp [list_tools, hq, hl]
    | none =>
      cases hg : getToolsField resp with
      | error m => simp [list_tools, hq, hl, hg]
      | ok tools => simp [list_tools, hq, hl, hg]

/-- The shape loop always sends the first shape before anything else. -/
theorem lenientLoop_sends (rpc : Json → Except String Resp) (p : Json)
    (rest : List Json) (last : Option Resp) :
    ∃ tail, (lenientLoop rpc (p :: rest) last).2 = p :: tail := by
  cases hr : rpc p with
  | error e => exact ⟨[], by simp [lenientLoop, hr]⟩
  | ok resp =>
    cases hl : resp.lookup "error" with
    | none => exact ⟨[], by simp [lenientLoop, hr, hl]⟩
    | some e =>
      cases hinv : isInvalidParamsErr e with
      | true =>
        exact ⟨(lenientLoop rpc rest (some resp)).2,
          by simp [lenientLoop, hr, hl, hinv]⟩
      | false => exact ⟨[], by simp [lenientLoop, hr, hl, hinv]⟩

/-- C3: tool discovery (`tools/list`, via `_rpc_lenient` with id 2) tries
exactly three param shapes in the order params-omitted, `params: {}`,
`params: null`; it returns the first response without an `error` field;
it advances to the next shape only on `error.code = -32602`; a response
with any other error is surfaced immediately — `list_tools` raises it —
with no further shape sent. -/
theorem discovery_shape_retry_gating (rpc : Json → Except String Resp) (i : Nat)
    (hi : i < (lenientShapes "tools/list" 2).length)
    (hprev : ∀ p ∈ (lenientShapes "tools/list" 2).take i,
      ∃ resp e, rpc p = .ok resp ∧ resp.lookup "error" = some e
        ∧ isInvalidParamsErr e = true) :
    lenientShapes "tools/list" 2
      = [ .obj [("jsonrpc", .str "2.0"), ("id", .num 2),
                ("method", .str "tools/list")],
          .obj [("jsonrpc", .str "2.0"), ("id", .num 2),
                ("method", .str "tools/list"), ("params", .obj [])],
          .obj [("jsonrpc", .str "2.0"), ("id", .num 2),
                ("method", .str "tools/list"), ("params", .null)] ]
    ∧ (∀ st, (list_tools st rpc).2.2 = (rpc_lenient rpc "tools/list" none 2).2)
    ∧ (∀ resp, rpc ((lenientShapes "tools/list" 2).get ⟨i, hi⟩) = .ok resp →
        resp.lookup "error" = none →
        rpc_lenient rpc "tools/list" none 2
          = (.ok resp, (lenientShapes "tools/list" 2).take (i + 1)))
    ∧ (∀ resp e, rpc ((lenientShapes "tools/list" 2).get ⟨i, hi⟩) = .ok resp →
        resp.lookup "error" = some e → isInvalidParamsErr e = false →
        rpc_lenient rpc "tools/list" none 2
          = (.ok resp, (lenientShapes "tools/list" 2).take (i + 1))
        ∧ ∀ st, (list_tools st rpc).1 = .error (.errField e)) := by
  refine ⟨rfl, fun st => list_tools_sent_eq st rpc, ?_, ?_⟩
  · exact (lenientLoop_spec rpc (lenientShapes "tools/list" 2) none i hi hprev).1
  · intro resp e hok herr hinv
    have hq := (lenientLoop_spec rpc (lenientShapes "tools/list" 2) none i hi hprev).2
      resp e hok herr hinv
    have hq2 : rpc_lenient rpc "tools/list" none 2
        = (.ok resp, (lenientShapes "tools/list" 2).take (i + 1)) := hq
    exact ⟨hq2, fun st => by simp [list_tools, hq2, herr]⟩

/-- Witness for C3: a server that rejects the omitted-params shape with
code -32602 and accepts `params: {}` yields the tool catalog via the
second shape, having sent exactly the first two payloads. -/
theorem discovery_shape_retry_gating_witness :
    rpc_lenient rpcParamsRequired "tools/list" none 2
      = (.ok respTools,
         [ .obj [("jsonrpc", .str "2.0"), ("id", .num 2),
                 ("method", .str "tools/list")],
           .obj [("jsonrpc", .str "2.0"), ("id", .num 2),
                 ("method", .str "tools/list"), ("params", .obj [])] ]) :=
  (discovery_shape_retry_gating rpcParamsRequired 1 (by decide)
    (by
      intro p hp
      have hp : p = .obj [("jsonrpc", .str JSONRPC_VERSION), ("id", .num 2),
          ("method", .str "tools/list")] := by
        simpa [lenientShapes] using hp
      subst hp
      exact ⟨resp32602,
        .obj [("code", .num (-32602)), ("message", .str "Invalid params")],
        rfl, rfl, rfl⟩)).2.2.1 respTools rfl rfl

/-- C6 counterexample: on a client fresh out of `__init__` — its handshake
never run, let alone succeeded — `list_tools` performs a transport request
(one payload is sent) and returns the catalog instead of failing with any
precondition error: the claimed precondition does not exist in the code. -/
theorem list_tools_no_precondition_counterexample :
    (list_tools freshSession rpcToolsOK).2.2
      = [.obj [("jsonrpc", .str "2.0"), ("id", .num 2),
               ("method", .str "tools/list")]]
    ∧ (list_tools freshSession rpcToolsOK).1 = .ok (.arr []) := ⟨rfl, rfl⟩

/-- C6 (amended): `list_tools` and `call_tool` are not guarded by any
handshake precondition — the Session state does not even record handshake
success — and every invocation, whatever the session state, hands a
request payload to the transport. -/
theorem session_ops_have_no_precondition (st : Session)
    (rpc : Json → Except String Resp) (name : String) (args : Json) :
    (list_tools st rpc).2.2 ≠ []
    ∧ (call_tool st rpc name args).2 = [call_tool_payload name args] := by
  constructor
  · rw [list_tools_sent_eq st rpc]
    obtain ⟨tail, htail⟩ := lenientLoop_sends rpc
      (.obj [("jsonrpc", .str JSONRPC_VERSION), ("id", .num 2),
             ("method", .str "tools/list")])
      [ .obj [("jsonrpc", .str JSONRPC_VERSION), ("id", .num 2),
              ("method", .str "tools/list"), ("params", .obj [])],
        .obj [("jsonrpc", .str JSONRPC_VERSION), ("id", .num 2),
              ("method", .str "tools/list"), ("params", .null)] ] none
    rw [show (rpc_lenient rpc "tools/list" none 2).2
        = (lenientLoop rpc (lenientShapes "tools/list" 2) none).2 from rfl]
    rw [show lenientShapes "tools/list" 2
        = .obj [("jsonrpc", .str JSONRPC_VERSION), ("id", .num 2),
                ("method", .str "tools/list")] ::
          [ .obj [("jsonrpc", .str JSONRPC_VERSION), ("id", .num 2),
                  ("method", .str "tools/list"), ("params", .obj [])],
            .obj [("jsonrpc", .str JSONRPC_VERSION), ("id", .num 2),
                  ("method", .str "tools/list"), ("params", .null)] ] from rfl]
    simp [htail]
  · cases hr : rpc (call_tool_payload name args) with
    | error e => simp [call_tool, hr]
    | ok resp =>
      cases hl : resp.lookup "error" with
      | some e => simp [call_tool, hr, hl]
      | none => simp [call_tool, hr, hl]

/-- C7 counterexample: two successive `call_tool` invocations on the same
session both send their request with id 3 — the second request's id is not
fresh and not unique among the session's previously sent requests. -/
theorem request_id_reuse_counterexample :
    (call_tool freshSession rpcToolsOK "first_tool" (.obj [])).2.map reqId
      = [some (.num 3)]
    ∧ (call_tool freshSession rpcToolsOK "second_tool" (.obj [])).2.map reqId
      = [some (.num 3)] := ⟨rfl, rfl⟩

/-- C7 (amended): request ids are fixed per method, not drawn from a
session-local counter — every `initialize` attempt carries id 1,
`_rpc_lenient` stamps its caller's fixed id on all three shapes
(`list_tools` passes 2), every `tools/call` carries id 3 — while the
`notifications/initialized` notification indeed carries no id. -/
theorem request_ids_fixed_per_method (strict_init : Bool) (method name : String)
    (idv : Int) (args : Json) :
    (initOrder strict_init).map reqId
      = [some (.num 1), some (.num 1), some (.num 1)]
    ∧ (lenientShapes method idv).map reqId
      = [some (.num idv), some (.num idv), some (.num idv)]
    ∧ reqId (call_tool_payload name args) = some (.num 3)
    ∧ reqId notifyInitPayload = none := by
  exact ⟨by cases strict_init <;> rfl, rfl, rfl, rfl⟩

/-- A line the framer skips leaves the loop on the remaining lines with
one less unit of budget. -/
theorem framer_skip_step (parse : String → Option Json) (fuel : Nat)
    (raw : String) (rest : List String) (hne : raw ≠ "")
    (hskip : lineMessage parse raw = none) :
    read_json_line_loop parse (fuel + 1) (raw :: rest)
      = read_json_line_loop parse fuel rest := by
  unfold lineMessage at hskip
  rw [if_neg hne] at hskip
  show (if raw = "" then FrameResult.transportClosed
    else match (pyStrip raw).data with
      | [] => read_json_line_loop parse fuel rest
      | c :: _ =>
        if c = lbrace ∨ c = '[' then
          match parse (pyStrip raw) with
          | some j => FrameResult.ok j
          | none => read_json_line_loop parse fuel rest
        else read_json_line_loop parse fuel rest)
    = read_json_line_loop parse fuel rest
  rw [if_neg hne]
  cases hd : (pyStrip raw).data with
  | nil => rfl
  | cons c cs =>
    rw [hd] at hskip
    have hskip2 : (if c = lbrace ∨ c = '[' then parse (pyStrip raw) else none)
        = none := hskip
    show (if c = lbrace ∨ c = '[' then
        match parse (pyStrip raw) with
        | some j => FrameResult.ok j
        | none => read_json_line_loop parse fuel rest
      else read_json_line_loop parse fuel rest)
      = read_json_line_loop parse fuel rest
    by_cases hbr : c = lbrace ∨ c = '['
    · rw [if_pos hbr] at hskip2
      rw [if_pos hbr, hskip2]
    · rw [if_neg hbr]

/-- A line carrying a parseable JSON message makes the loop return it. -/
theorem framer_hit_step (parse : String → Option Json) (fuel : Nat)
    (raw : String) (rest : List String) (j : Json) (hne : raw ≠ "")
    (hmsg : lineMessage parse raw = some j) :
    read_json_line_loop parse (fuel + 1) (raw :: rest) = .ok j := by
  unfold lineMessage at hmsg
  rw [if_neg hne] at hmsg
  show (if raw = "" then FrameResult.transportClosed
    else match (pyStrip raw).data with
      | [] => read_json_line_loop parse fuel rest
      | c :: _ =>
        if c = lbrace ∨ c = '[' then
          match parse (pyStrip raw) with
          | some j => FrameResult.ok j
          | none => read_json_line_loop parse fuel rest
        else read_json_line_loop parse fuel rest)
    = .ok j
  rw [if_neg hne]
  cases hd : (pyStrip raw).data with
  | nil => rw [hd] at hmsg; exact absurd hmsg (by simp)
  | cons c cs =>
    rw [hd] at hmsg
    have hmsg2 : (if c = lbrace ∨ c = '[' then parse (pyStrip raw) else none)
        = some j := hmsg
    show (if c = lbrace ∨ c = '[' then
        match parse (pyStrip raw) with
        | some j => FrameResult.ok j
        | none => read_json_line_loop parse fuel rest
      else read_json_line_loop parse fuel rest)
      = FrameResult.ok j
    by_cases hbr : c = lbrace ∨ c = '['
    · rw [if_pos hbr] at hmsg2
      rw [if_pos hbr, hmsg2]
    · rw [if_neg hbr] at hmsg2; exact absurd hmsg2 (by simp)

/-- The loop returns the message of the first non-skipped line, provided
that line arrives while budget remains. -/
theorem framer_first_hit (parse : String → Option Json) :
    ∀ (i fuel : Nat) (lines : List String), i < fuel →
    ∀ (hi : i < lines.length),
    (∀ p ∈ lines.take i, p ≠ "" ∧ lineMessage parse p = none) →
    ∀ j, lines.get ⟨i, hi⟩ ≠ "" → lineMessage parse (lines.get ⟨i, hi⟩) = some j →
    read_json_line_loop parse fuel lines = .ok j := by
  intro i
  induction i with
  | zero =>
    intro fuel lines hfuel hi hprev j hne hmsg
    cases lines with
    | nil => simp at hi
    | cons raw rest =>
      cases fuel with
      | zero => omega
      | succ fuel =>
        simp only [List.get] at hne hmsg
        exact framer_hit_step parse fuel raw rest j hne hmsg
  | succ i ih =>
    intro fuel lines hfuel hi hprev j hne hmsg
    cases lines with
    | nil => simp at hi
    | cons raw rest =>
      cases fuel with
      | zero => omega
      | succ fuel =>
        obtain ⟨hne0, hskip0⟩ := hprev raw (by simp)
        rw [framer_skip_step parse fuel raw rest hne0 hskip0]
        simp only [List.get] at hne hmsg
        exact ih fuel rest (by omega) (by simpa using hi)
          (fun q hq => hprev q (by simp [hq])) j hne hmsg

/-- When every line within the budget is skipped and at least `fuel`
lines exist, the loop exhausts its budget. -/
theorem framer_timeout (parse : String → Option Json) :
    ∀ (fuel : Nat) (lines : List String), fuel ≤ lines.length →
    (∀ p ∈ lines.take fuel, p ≠ "" ∧ lineMessage parse p = none) →
    read_json_line_loop parse fuel lines = .framingTimeout := by
  intro fuel
  induction fuel with
  | zero => intro lines _ _; rfl
  | succ fuel ih =>
    intro lines hlen hprev
    cases lines with
    | nil => simp at hlen
    | cons raw rest =>
      obtain ⟨hne0, hskip0⟩ := hprev raw (by simp)
      rw [framer_skip_step parse fuel raw rest hne0 hskip0]
      exact ih rest (by simpa using hlen) (fun q hq => hprev q (by simp [hq]))

/-- When every line is skipped and the stream ends before the budget
does, the loop hits end-of-stream. -/
theorem framer_closed (parse : String → Option Json) :
    ∀ (lines : List String) (fuel : Nat), lines.length < fuel →
    (∀ p ∈ lines, p ≠ "" ∧ lineMessage parse p = none) →
    read_json_line_loop parse fuel lines = .transportClosed := by
  intro lines
  induction lines with
  | nil =>
    intro fuel hf _
    cases fuel with
    | zero => omega
    | succ fuel => rfl
  | cons raw rest ih =>
    intro fuel hf hall
    cases fuel with
    | zero => omega
    | succ fuel =>
      obtain ⟨hne0, hskip0⟩ := hall raw (by simp)
      rw [framer_skip_step parse fuel raw rest hne0 hskip0]
      exact ih fuel (by simpa using hf) (fun q hq => hall q (by simp [hq]))

/-- C4 counterexample: with 500 lines of noise ahead of it, a perfectly
parseable JSON line is never returned — the budget is exhausted first —
so the unconditional "returns the first parseable line" reading fails. -/
theorem framer_budget_counterexample :
    read_json_line json_loads (List.replicate 500 "noise" ++ ["\x7b\x7d"])
      = .framingTimeout
    ∧ json_loads "\x7b\x7d" = some (.obj [])
    ∧ FrameResult.framingTimeout ≠ FrameResult.ok (.obj []) := by
  refine ⟨?_, rfl, by simp⟩
  show read_json_line_loop json_loads 500 (List.replicate 500 "noise" ++ ["\x7b\x7d"])
    = .framingTimeout
  apply framer_timeout
  · rw [List.length_append, List.length_replicate]
    omega
  · intro p hp
    have h1 : (List.replicate 500 "noise" ++ ["\x7b\x7d"]).take 500
        = List.replicate 500 "noise" := by
      rw [List.take_append_of_le_length (by rw [List.length_replicate]),
        List.take_replicate, Nat.min_self]
    rw [h1] at hp
    have hp2 : p = "noise" := List.eq_of_mem_replicate hp
    subst hp2
    exact ⟨by decide, rfl⟩

/-- C4 (amended): `nextMessage` returns the parsed value of the first
line that, stripped, begins with a brace or bracket and parses as JSON,
skipping without failure every earlier empty, noise, or malformed line —
provided that line is among the first 500 lines read (the skip budget);
in particular two banner lines followed by one JSON object line yield
exactly that object. -/
theorem framer_first_json_within_budget (parse : String → Option Json)
    (lines : List String) (i : Nat) (hbudget : i < 500)
    (hi : i < lines.length)
    (hprev : ∀ p ∈ lines.take i, p ≠ "" ∧ lineMessage parse p = none)
    (j : Json) (hne : lines.get ⟨i, hi⟩ ≠ "")
    (hmsg : lineMessage parse (lines.get ⟨i, hi⟩) = some j) :
    read_json_line parse lines = .ok j :=
  framer_first_hit parse i 500 lines hbudget hi hprev j hne hmsg

/-- Witness for the amended C4: the spec's example stream — two banner
lines, then one JSON object line — yields exactly that object. -/
theorem framer_first_json_within_budget_witness :
    read_json_line json_loads bannerStream = .ok bannerJsonVal :=
  framer_first_json_within_budget json_loads bannerStream 2 (by decide)
    (by decide)
    (by
      intro p hp
      have hp2 : p = "startup banner" ∨ p = "more log text" := by
        simpa [bannerStream] using hp
      rcases hp2 with hp2 | hp2 <;> subst hp2 <;> exact ⟨by decide, rfl⟩)
    bannerJsonVal (by decide) rfl

/-- C5: the framer fails rather than waiting unboundedly — when the
(500-line) skip budget is exhausted on noise it fails with the
framing-timeout error, and when the stream ends before the budget is
spent it fails with the transport-closed error. -/
theorem framer_bounded_failure (parse : String → Option Json)
    (lines : List String) :
    (500 ≤ lines.length →
      (∀ p ∈ lines.take 500, p ≠ "" ∧ lineMessage parse p = none) →
      read_json_line parse lines = .framingTimeout)
    ∧ (lines.length < 500 →
      (∀ p ∈ lines, p ≠ "" ∧ lineMessage parse p = none) →
      read_json_line parse lines = .transportClosed) :=
  ⟨fun hlen hall => framer_timeout parse 500 lines hlen hall,
   fun hlen hall => framer_closed parse lines 500 hlen hall⟩

/-- Witness for C5: 500 noise lines exhaust the budget; a one-line
stream of noise runs into end-of-stream. -/
theorem framer_bounded_failure_witness :
    read_json_line json_loads (List.replicate 500 "x") = .framingTimeout
    ∧ read_json_line json_loads ["x"] = .transportClosed := by
  constructor
  · exact (framer_bounded_failure json_loads (List.replicate 500 "x")).1
      (by rw [List.length_replicate])
      (by
        intro p hp
        rw [List.take_replicate, Nat.min_self] at hp
        have hp2 : p = "x" := List.eq_of_mem_replicate hp
        subst hp2
        exact ⟨by decide, rfl⟩)
  · exact (framer_bounded_failure json_loads ["x"]).2 (by simp)
      (by
        intro p hp
        have hp2 : p = "x" := by simpa using hp
        subst hp2
        exact ⟨by decide, rfl⟩)

/-- C8 counterexample: a two-descriptor bootstrap whose first descriptor
fails at the handshake aborts entirely — the second descriptor, whose
bootstrap succeeds when run alone, appears in no result because no
registry is returned at all. -/
theorem bootstrap_not_independent_counterexample :
    bootstrap_clients [] [dBad, dGood] []
      = .error (.initFailed (some (.exn "connection refused")))
    ∧ bootstrap_clients [] [dGood] []
      = .ok [("good", ⟨"good", .arr [], true⟩)] := ⟨rfl, rfl⟩

/-- C8 (amended): `bootstrap_clients` processes descriptors sequentially
with no per-descriptor error handling — the first descriptor whose
bootstrap (handshake, optional notification, or discovery) fails makes
the whole bootstrap raise that failure, the remaining descriptors are
never processed (the result does not depend on them), and the successes
accumulated so far are discarded. -/
theorem bootstrap_first_failure_aborts (notifyList : List String)
    (d : ServerSpec) (rest rest2 : List ServerSpec)
    (acc : List (String × Session)) (e : BootFailure)
    (h : bootstrapOne notifyList d = .error e) :
    bootstrap_clients notifyList (d :: rest) acc = .error e
    ∧ bootstrap_clients notifyList (d :: rest) acc
      = bootstrap_clients notifyList (d :: rest2) acc := by
  constructor <;> simp [bootstrap_clients, h]

/-- Witness for the amended C8: with the failing descriptor first, the
bootstrap of the failing-plus-succeeding list raises the handshake
failure. -/
theorem bootstrap_first_failure_aborts_witness :
    bootstrap_clients [] [dBad, dGood] []
      = .error (.initFailed (some (.exn "connection refused")))
    ∧ bootstrap_clients [] [dBad, dGood] [] = bootstrap_clients [] [dBad] [] :=
  bootstrap_first_failure_aborts [] dBad [dGood] [] [] _ rfl

/-- C9 counterexample: on the stdio transport, with the child not yet
observed exited, a raised pipe-write error propagates out of
`notify_initialized` instead of being swallowed. -/
theorem stdio_notify_error_counterexample :
    notify_initialized_stdio false badWrite = .error "BrokenPipeError"
    ∧ notify_initialized_stdio false badWrite ≠ .ok () :=
  ⟨rfl, fun h => nomatch h⟩

/-- C9 (amended): the HTTP transport's `notify_initialized` swallows
every failure; the stdio override swallows only the already-exited-child
case and otherwise returns exactly the outcome of the pipe write — a
write error is surfaced, not swallowed. -/
theorem notify_error_swallowing (rpc : Json → Except String Resp)
    (w : Json → Except String Unit) :
    notify_initialized_http rpc = .ok ()
    ∧ notify_initialized_stdio true w = .ok ()
    ∧ notify_initialized_stdio false w = w notifyInitPayload := by
  refine ⟨?_, rfl, rfl⟩
  unfold notify_initialized_http base_notify
  cases rpc notifyInitPayload <;> rfl

/-- C10: evaluation of `_normalize_path_into_base` at the failing input
`value = ".."` under base `/tmp/base` — `Path("..").name` is `".."`, so
the "basename inside the base" fallback resolves to `/tmp`, the parent of
the base, outside it; `fs_normalize_args` then stores that escaping path
under the `path` key (while a missing base leaves the args unchanged). -/
theorem normalize_path_escape_eval :
    normalize_path_into_base ["tmp", "base"] ".." = ["tmp"]
    ∧ List.isPrefixOf ["tmp", "base"] ["tmp"] = false
    ∧ fs_normalize_args (.obj [("path", .str "..")]) (some ["tmp", "base"])
        = .obj [("path", .str "/tmp")]
    ∧ fs_normalize_args (.obj [("path", .str "..")]) none
        = .obj [("path", .str "..")] := ⟨rfl, rfl, rfl, rfl⟩

end Theorems

end MCP
